import Mathlib

/-!
Shallow embedding of the Result-based validation core of the
`try-catch-sucks` repository (src/errors.ts, src/neverthrow.ts,
src/errors-as-values.ts), together with theorems settling the spec
claims about it.

Modelling conventions:
* A JavaScript `Error` subclass instance is modelled by its two
  observable fields, `name` and `message` (`JsError`).  Each error
  class of src/errors.ts becomes a constructor function that builds
  the `JsError` its `constructor` would build.
* The neverthrow `Result` type is modelled by the two-variant
  inductive `Result`, with `map`, `mapErr`, `andThen`, `isOk`,
  `isErr` as in the library.
* JavaScript string primitives are modelled over `List Char`:
  `includes` is substring search (`jsIncludes`), `toLowerCase`
  lowercases the ASCII range A-Z (`jsToLowerCase`), `trim` drops
  leading and trailing whitespace (`jsTrim`), `.length` is the
  character count, and the regex tests `/[A-Z]/` and `/[0-9]/` are
  existence of a character in the respective ASCII range.
* `age: number` is modelled as `Int`; the code compares it only with
  the integer bounds 13 and 120.
* The asynchronous registration flow awaits a single lookup
  sequentially, so it is modelled by a pure function; the number of
  times the duplicate-email lookup is invoked is returned alongside
  the outcome so that the ordering guarantee is statable.
-/

namespace TryCatchSucks

/-- Observable part of a JavaScript `Error` object: its `name` tag and
its `message`. -/
structure JsError where
  name : String
  message : String
deriving Repr, DecidableEq

/-- src/errors.ts: `class EmailValidationError extends Error` — the
constructor sets `message` to `Email validation failed: ${message}` and
`name` to `"EmailValidationError"`. -/
def EmailValidationError (message : String) : JsError :=
  { name := "EmailValidationError"
    message := "Email validation failed: " ++ message }

/-- src/errors.ts: `class PasswordValidationError extends Error`. -/
def PasswordValidationError (message : String) : JsError :=
  { name := "PasswordValidationError"
    message := "Password validation failed: " ++ message }

/-- src/errors.ts: `class AgeValidationError extends Error`. -/
def AgeValidationError (message : String) : JsError :=
  { name := "AgeValidationError"
    message := "Age validation failed: " ++ message }

/-- src/errors.ts: `class DuplicateEmailError extends Error` — takes the
offending email, message is `Email already registered: ${email}`. -/
def DuplicateEmailError (email : String) : JsError :=
  { name := "DuplicateEmailError"
    message := "Email already registered: " ++ email }

/-- src/errors.ts: `class DatabaseError extends Error`. -/
def DatabaseError (message : String) : JsError :=
  { name := "DatabaseError"
    message := "Database error: " ++ message }

/-- The neverthrow `Result` container: `ok` holds a success value,
`err` holds an error value. -/
inductive Result (α ε : Type) where
  | ok (value : α)
  | err (error : ε)
deriving Repr, DecidableEq

namespace Result

variable {α β ε φ : Type}

/-- neverthrow `isOk()`. -/
def isOk : Result α ε → Bool
  | .ok _ => true
  | .err _ => false

/-- neverthrow `isErr()`. -/
def isErr : Result α ε → Bool
  | .ok _ => false
  | .err _ => true

/-- neverthrow `map`: applies `f` to the value if `ok`; an `err`
passes through unchanged. -/
def map : Result α ε → (α → β) → Result β ε
  | .ok v, f => .ok (f v)
  | .err e, _ => .err e

/-- neverthrow `mapErr`: applies `f` to the error if `err`; an `ok`
passes through unchanged. -/
def mapErr : Result α ε → (ε → φ) → Result α φ
  | .ok v, _ => .ok v
  | .err e, f => .err (f e)

/-- neverthrow `andThen` (bind): if `ok`, invokes `f` on the value and
returns its `Result`; if `err`, short-circuits with the original
error. -/
def andThen : Result α ε → (α → Result β ε) → Result β ε
  | .ok v, f => f v
  | .err e, _ => .err e

end Result

/-- Leading-segment test on character lists: `leadsList sub l` is true
when `sub` occurs at the very start of `l`. -/
def leadsList : List Char → List Char → Bool
  | [], _ => true
  | _ :: _, [] => false
  | a :: as, b :: bs => a == b && leadsList as bs

/-- Occurrence test: `containsSeq sub l` is true when `sub` occurs
contiguously somewhere in `l`. -/
def containsSeq : List Char → List Char → Bool
  | sub, [] => sub.isEmpty
  | sub, b :: bs => leadsList sub (b :: bs) || containsSeq sub bs

/-- JavaScript `s.includes(sub)`: substring containment. -/
def jsIncludes (s sub : String) : Bool :=
  containsSeq sub.data s.data

/-- JavaScript `String.prototype.toLowerCase` restricted to the ASCII
range the code exercises: characters `A`-`Z` map to `a`-`z`, all
others are unchanged. -/
def jsCharToLower (c : Char) : Char :=
  if 'A' ≤ c && c ≤ 'Z' then Char.ofNat (c.toNat + 32) else c

/-- JavaScript `s.toLowerCase()`. -/
def jsToLowerCase (s : String) : String :=
  String.mk (s.data.map jsCharToLower)

/-- Whitespace characters stripped by JavaScript `trim` that the code
can meet in its ASCII inputs. -/
def isJsSpace (c : Char) : Bool :=
  c = ' ' || c = '\t' || c = '\n' || c = '\r'

/-- JavaScript `s.trim()`: drop leading and trailing whitespace. -/
def jsTrim (s : String) : String :=
  String.mk (((s.data.dropWhile isJsSpace).reverse.dropWhile isJsSpace).reverse)

/-- JavaScript regex test `/[A-Z]/.test(s)`: some character lies in the
ASCII uppercase range. -/
def hasAsciiUpper (s : String) : Bool :=
  s.data.any fun c => 'A' ≤ c && c ≤ 'Z'

/-- JavaScript regex test `/[0-9]/.test(s)`: some character lies in the
ASCII digit range. -/
def hasAsciiDigit (s : String) : Bool :=
  s.data.any fun c => '0' ≤ c && c ≤ '9'

/-- src/neverthrow.ts `validateEmail_NeverThrow`: err `Missing @ symbol`
if no `@`, err `Missing domain` if no `.`, else ok with the
lowercased, trimmed email. -/
def validateEmail_NeverThrow (email : String) : Result String JsError :=
  if !(jsIncludes email "@") then
    .err (EmailValidationError "Missing @ symbol")
  else if !(jsIncludes email ".") then
    .err (EmailValidationError "Missing domain")
  else
    .ok (jsTrim (jsToLowerCase email))

/-- src/neverthrow.ts `validatePassword_NeverThrow`: err `Too short` if
length < 8, err `Missing uppercase` if no `[A-Z]`, err
`Missing number` if no `[0-9]`, else ok with the password unchanged. -/
def validatePassword_NeverThrow (password : String) : Result String JsError :=
  if password.length < 8 then
    .err (PasswordValidationError "Too short")
  else if !(hasAsciiUpper password) then
    .err (PasswordValidationError "Missing uppercase")
  else if !(hasAsciiDigit password) then
    .err (PasswordValidationError "Missing number")
  else
    .ok password

/-- src/neverthrow.ts `validateAge_NeverThrow`: err `Must be 13 or
older` if age < 13, err `Invalid age` if age > 120, else ok with the
age unchanged. -/
def validateAge_NeverThrow (age : Int) : Result Int JsError :=
  if age < 13 then
    .err (AgeValidationError "Must be 13 or older")
  else if age > 120 then
    .err (AgeValidationError "Invalid age")
  else
    .ok age

/-- src/neverthrow.ts `UserPayload`. -/
structure UserPayload where
  email : String
  password : String
  age : Int
deriving Repr, DecidableEq

/-- src/neverthrow.ts `createUserPayload`: chains the three validators
with `andThen`/`map`, building the payload incrementally. -/
def createUserPayload (email password : String) (age : Int) :
    Result UserPayload JsError :=
  ((validateEmail_NeverThrow email).andThen fun validEmail =>
    (validatePassword_NeverThrow password).map fun validPassword =>
      ({ email := validEmail, password := validPassword, age := age } :
        UserPayload)).andThen fun p =>
    (validateAge_NeverThrow p.age).map fun validAge =>
      { p with age := validAge }

/-- src/neverthrow.ts `checkEmailExists` (the awaited boolean): the
email exists iff it includes the substring `existing`. -/
def checkEmailExists (email : String) : Bool :=
  jsIncludes email "existing"

/-- src/neverthrow.ts `findUserByEmail`: err `DuplicateEmailError`
when the email exists, else ok with the email. -/
def findUserByEmail (email : String) : Result String JsError :=
  if checkEmailExists email then
    .err (DuplicateEmailError email)
  else
    .ok email

/-- src/neverthrow.ts `registerUser_NeverThrow`, instrumented: the
source builds the payload, returns early on its failure, otherwise
awaits `findUserByEmail` on the payload email and fails on a
duplicate, else succeeds with the payload.  The second component
counts how many times `findUserByEmail` was invoked, so the
sequential-dependency guarantee is statable. -/
def registerUser_NeverThrow (email password : String) (age : Int) :
    Result UserPayload JsError × Nat :=
  match createUserPayload email password age with
  | .err e => (.err e, 0)
  | .ok payload =>
    match findUserByEmail payload.email with
    | .err e => (.err e, 1)
    | .ok _ => (.ok payload, 1)

/-- src/errors-as-values.ts `ValidationIssue`. -/
structure ValidationIssue where
  field : String
  message : String
deriving Repr, DecidableEq

/-- src/errors-as-values.ts `validateEmail_Collect`: same rule order as
the neverthrow email validator, producing `ValidationIssue`s. -/
def validateEmail_Collect (email : String) : Result String ValidationIssue :=
  if !(jsIncludes email "@") then
    .err { field := "email", message := "Missing @ symbol" }
  else if !(jsIncludes email ".") then
    .err { field := "email", message := "Missing domain" }
  else
    .ok (jsTrim (jsToLowerCase email))

/-- src/errors-as-values.ts `validatePassword_Collect`: only the length
rule, producing a `ValidationIssue`. -/
def validatePassword_Collect (password : String) : Result String ValidationIssue :=
  if password.length < 8 then
    .err { field := "password", message := "Too short" }
  else
    .ok password

/-- src/errors-as-values.ts `validateAll_Collect`: run both validators
unconditionally, collect every issue (email first, then password);
succeed with both values only when both succeed. -/
def validateAll_Collect (email password : String) :
    Result (String × String) (List ValidationIssue) :=
  match validateEmail_Collect email, validatePassword_Collect password with
  | .err ie, .err ip => .err [ie, ip]
  | .err ie, .ok _ => .err [ie]
  | .ok _, .err ip => .err [ip]
  | .ok ve, .ok vp => .ok (ve, vp)

/-- src/errors-as-values.ts `validateWithFallback`: on a failure whose
message includes `Missing @`, recover with `ok "user@default.com"`;
every other result passes through unchanged. -/
def validateWithFallback (email : String) : Result String JsError :=
  match validateEmail_NeverThrow email with
  | .err e =>
    if jsIncludes e.message "Missing @" then .ok "user@default.com"
    else .err e
  | .ok v => .ok v

/-! ### Helper lemmas -/

theorem containsSeq_single (c : Char) (l : List Char) :
    containsSeq [c] l = true ↔ c ∈ l := by
  induction l with
  | nil => simp [containsSeq]
  | cons b bs ih => simp [containsSeq, leadsList, ih, List.mem_cons]

theorem jsIncludes_single (s : String) (c : Char) (sub : String)
    (h : sub.data = [c]) : jsIncludes s sub = true ↔ c ∈ s.data := by
  simp [jsIncludes, h, containsSeq_single]

theorem hasAsciiUpper_iff (s : String) :
    hasAsciiUpper s = true ↔ ∃ c ∈ s.data, 'A' ≤ c ∧ c ≤ 'Z' := by
  simp [hasAsciiUpper]

theorem hasAsciiDigit_iff (s : String) :
    hasAsciiDigit s = true ↔ ∃ c ∈ s.data, '0' ≤ c ∧ c ≤ '9' := by
  simp [hasAsciiDigit]

theorem validateEmail_ok_val {email v : String}
    (h : validateEmail_NeverThrow email = .ok v) :
    v = jsTrim (jsToLowerCase email) := by
  simp only [validateEmail_NeverThrow] at h
  split at h <;> simp_all
  split at h <;> simp_all

theorem validatePassword_ok_val {password v : String}
    (h : validatePassword_NeverThrow password = .ok v) : v = password := by
  simp only [validatePassword_NeverThrow] at h
  split at h <;> simp_all
  split at h <;> simp_all
  split at h <;> simp_all

theorem validateAge_ok_val {age v : Int}
    (h : validateAge_NeverThrow age = .ok v) : v = age := by
  simp only [validateAge_NeverThrow] at h
  split at h <;> simp_all
  split at h <;> simp_all

theorem createUserPayload_eq (email password : String) (age : Int) :
    createUserPayload email password age =
      (validateEmail_NeverThrow email).andThen fun ve =>
        (validatePassword_NeverThrow password).andThen fun vp =>
          (validateAge_NeverThrow age).map fun va =>
            { email := ve, password := vp, age := va } := by
  unfold createUserPayload
  cases h1 : validateEmail_NeverThrow email <;>
    cases h2 : validatePassword_NeverThrow password <;>
      cases h3 : validateAge_NeverThrow age <;>
        simp [Result.andThen, Result.map, h1, h2, h3]

/-! ### Claim theorems -/

/-- C1: `createUserPayload` returns Success exactly when all three
inputs individually pass their validators, with payload
`{email := lowercased and trimmed email, password := input password,
age := input age}`; on Failure the returned error is the one of the
first failing validator in chain order (email, then password, then
age); and the two end-to-end examples hold. -/
theorem createUserPayload_spec (email password : String) (age : Int) :
    (∀ pl, createUserPayload email password age = .ok pl ↔
      ((validateEmail_NeverThrow email).isOk = true ∧
       (validatePassword_NeverThrow password).isOk = true ∧
       (validateAge_NeverThrow age).isOk = true ∧
       pl = { email := jsTrim (jsToLowerCase email), password := password,
              age := age })) ∧
    (∀ e, validateEmail_NeverThrow email = .err e →
      createUserPayload email password age = .err e) ∧
    (∀ v e, validateEmail_NeverThrow email = .ok v →
      validatePassword_NeverThrow password = .err e →
      createUserPayload email password age = .err e) ∧
    (∀ v w e, validateEmail_NeverThrow email = .ok v →
      validatePassword_NeverThrow password = .ok w →
      validateAge_NeverThrow age = .err e →
      createUserPayload email password age = .err e) ∧
    createUserPayload "Test@Example.COM" "SecurePass123" 30 =
      .ok { email := "test@example.com", password := "SecurePass123",
            age := 30 } ∧
    createUserPayload "bademail" "short" 5 =
      .err (EmailValidationError "Missing @ symbol") := by
  refine ⟨?_, ?_, ?_, ?_, by decide, by decide⟩
  · intro pl
    cases hE : validateEmail_NeverThrow email with
    | err eE => simp [createUserPayload_eq, Result.andThen, hE, Result.isOk]
    | ok vE =>
      cases hP : validatePassword_NeverThrow password with
      | err eP =>
        simp [createUserPayload_eq, Result.andThen, hE, hP, Result.isOk]
      | ok vP =>
        cases hA : validateAge_NeverThrow age with
        | err eA =>
          simp [createUserPayload_eq, Result.andThen, Result.map, hE, hP,
            hA, Result.isOk]
        | ok vA =>
          have e1 := validateEmail_ok_val hE
          have e2 := validatePassword_ok_val hP
          have e3 := validateAge_ok_val hA
          subst e1 e2 e3
          simp [createUserPayload_eq, Result.andThen, Result.map, hE, hP,
            hA, Result.isOk, eq_comm]
  · intro e hE
    simp [createUserPayload_eq, Result.andThen, hE]
  · intro v e hE hP
    simp [createUserPayload_eq, Result.andThen, hE, hP]
  · intro v w e hE hP hA
    simp [createUserPayload_eq, Result.andThen, Result.map, hE, hP, hA]

/-- C1 witness: concrete instantiation on a failing email. -/
theorem createUserPayload_spec_witness :
    createUserPayload "bademail" "SecurePass123" 30 =
      .err (EmailValidationError "Missing @ symbol") :=
  (createUserPayload_spec "bademail" "SecurePass123" 30).2.1
    (EmailValidationError "Missing @ symbol") (by decide)

/-- C2: if the email contains no `@`, the validator fails with
`Missing @ symbol`; with `@` but no `.`, it fails with
`Missing domain`; with both, it succeeds with the lowercased, trimmed
email. -/
theorem validateEmail_spec (email : String) :
    ('@' ∉ email.data →
      validateEmail_NeverThrow email =
        .err (EmailValidationError "Missing @ symbol")) ∧
    ('@' ∈ email.data → '.' ∉ email.data →
      validateEmail_NeverThrow email =
        .err (EmailValidationError "Missing domain")) ∧
    ('@' ∈ email.data → '.' ∈ email.data →
      validateEmail_NeverThrow email =
        .ok (jsTrim (jsToLowerCase email))) := by
  have hAt := jsIncludes_single email '@' "@" (by decide)
  have hDot := jsIncludes_single email '.' "." (by decide)
  refine ⟨?_, ?_, ?_⟩
  · intro h1
    have hA : jsIncludes email "@" = false := by
      cases hb : jsIncludes email "@" with
      | false => rfl
      | true => exact absurd (hAt.mp hb) h1
    simp [validateEmail_NeverThrow, hA]
  · intro h1 h2
    have hD : jsIncludes email "." = false := by
      cases hb : jsIncludes email "." with
      | false => rfl
      | true => exact absurd (hDot.mp hb) h2
    simp [validateEmail_NeverThrow, hAt.mpr h1, hD]
  · intro h1 h2
    simp [validateEmail_NeverThrow, hAt.mpr h1, hDot.mpr h2]

/-- C2 witness: concrete instantiation on a valid email. -/
theorem validateEmail_spec_witness :
    validateEmail_NeverThrow "a@b.com" =
      .ok (jsTrim (jsToLowerCase "a@b.com")) :=
  (validateEmail_spec "a@b.com").2.2 (by decide) (by decide)

/-- C3: the password validator fails with `Too short` when the length
is below 8; at length 8 or more it fails with `Missing uppercase` when
no character is an ASCII uppercase letter; with an uppercase but no
ASCII digit it fails with `Missing number`; otherwise it succeeds with
the password unchanged. -/
theorem validatePassword_spec (password : String) :
    (password.length < 8 →
      validatePassword_NeverThrow password =
        .err (PasswordValidationError "Too short")) ∧
    (8 ≤ password.length →
      (∀ c ∈ password.data, ¬('A' ≤ c ∧ c ≤ 'Z')) →
      validatePassword_NeverThrow password =
        .err (PasswordValidationError "Missing uppercase")) ∧
    (8 ≤ password.length →
      (∃ c ∈ password.data, 'A' ≤ c ∧ c ≤ 'Z') →
      (∀ c ∈ password.data, ¬('0' ≤ c ∧ c ≤ '9')) →
      validatePassword_NeverThrow password =
        .err (PasswordValidationError "Missing number")) ∧
    (8 ≤ password.length →
      (∃ c ∈ password.data, 'A' ≤ c ∧ c ≤ 'Z') →
      (∃ c ∈ password.data, '0' ≤ c ∧ c ≤ '9') →
      validatePassword_NeverThrow password = .ok password) := by
  refine ⟨?_, ?_, ?_, ?_⟩
  · intro h1
    simp [validatePassword_NeverThrow, h1]
  · intro h1 h2
    have hlen : ¬ password.length < 8 := by omega
    have hU : hasAsciiUpper password = false := by
      cases hb : hasAsciiUpper password with
      | false => rfl
      | true =>
        obtain ⟨c, hc, h1c, h2c⟩ := (hasAsciiUpper_iff password).mp hb
        exact absurd ⟨h1c, h2c⟩ (h2 c hc)
    simp [validatePassword_NeverThrow, hlen, hU]
  · intro h1 h2 h3
    have hlen : ¬ password.length < 8 := by omega
    have hD : hasAsciiDigit password = false := by
      cases hb : hasAsciiDigit password with
      | false => rfl
      | true =>
        obtain ⟨c, hc, h1c, h2c⟩ := (hasAsciiDigit_iff password).mp hb
        exact absurd ⟨h1c, h2c⟩ (h3 c hc)
    simp [validatePassword_NeverThrow, hlen,
      (hasAsciiUpper_iff password).mpr h2, hD]
  · intro h1 h2 h3
    have hlen : ¬ password.length < 8 := by omega
    simp [validatePassword_NeverThrow, hlen,
      (hasAsciiUpper_iff password).mpr h2,
      (hasAsciiDigit_iff password).mpr h3]

/-- C3 witness: concrete instantiation on a conforming password. -/
theorem validatePassword_spec_witness :
    validatePassword_NeverThrow "SecurePass123" = .ok "SecurePass123" :=
  (validatePassword_spec "SecurePass123").2.2.2 (by decide) (by decide)
    (by decide)

/-- C4: the age validator fails with `Must be 13 or older` below 13,
fails with `Invalid age` above 120, and succeeds with the age
unchanged on the whole range 13 to 120. -/
theorem validateAge_spec (age : Int) :
    (age < 13 →
      validateAge_NeverThrow age =
        .err (AgeValidationError "Must be 13 or older")) ∧
    (120 < age →
      validateAge_NeverThrow age = .err (AgeValidationError "Invalid age")) ∧
    (13 ≤ age → age ≤ 120 → validateAge_NeverThrow age = .ok age) := by
  refine ⟨?_, ?_, ?_⟩
  · intro h1
    simp [validateAge_NeverThrow, h1]
  · intro h1
    have h2 : ¬ age < 13 := by omega
    simp [validateAge_NeverThrow, h1, h2]
  · intro h1 h2
    have h3 : ¬ age < 13 := by omega
    have h4 : ¬ age > 120 := by omega
    simp [validateAge_NeverThrow, h3, h4]

/-- C4 witness: concrete instantiation at age 30. -/
theorem validateAge_spec_witness : validateAge_NeverThrow 30 = .ok 30 :=
  (validateAge_spec 30).2.2 (by decide) (by decide)

/-- C5: the accumulating composer collects every issue produced by the
two unconditionally evaluated validators, email issue first, then
password issue, and succeeds with both normalized values only when
both succeed; the two concrete examples hold. -/
theorem validateAll_Collect_spec (email password : String) :
    (∀ ie ip, validateEmail_Collect email = .err ie →
      validatePassword_Collect password = .err ip →
      validateAll_Collect email password = .err [ie, ip]) ∧
    (∀ ie v, validateEmail_Collect email = .err ie →
      validatePassword_Collect password = .ok v →
      validateAll_Collect email password = .err [ie]) ∧
    (∀ v ip, validateEmail_Collect email = .ok v →
      validatePassword_Collect password = .err ip →
      validateAll_Collect email password = .err [ip]) ∧
    (∀ ve vp, validateEmail_Collect email = .ok ve →
      validatePassword_Collect password = .ok vp →
      validateAll_Collect email password = .ok (ve, vp)) ∧
    validateAll_Collect "bad" "short" =
      .err [{ field := "email", message := "Missing @ symbol" },
            { field := "password", message := "Too short" }] ∧
    validateAll_Collect "a@b.com" "LongPass1" =
      .ok ("a@b.com", "LongPass1") := by
  refine ⟨?_, ?_, ?_, ?_, by decide, by decide⟩ <;>
    intro x y hE hP <;> simp [validateAll_Collect, hE, hP]

/-- C5 witness: concrete instantiation where both validators fail. -/
theorem validateAll_Collect_spec_witness :
    validateAll_Collect "bad" "short" =
      .err [{ field := "email", message := "Missing @ symbol" },
            { field := "password", message := "Too short" }] :=
  (validateAll_Collect_spec "bad" "short").1
    { field := "email", message := "Missing @ symbol" }
    { field := "password", message := "Too short" } (by decide) (by decide)

/-- C6: the fallback combinator turns exactly those failures whose
message includes `Missing @` into Success `user@default.com`; every
other failure and every success passes through unchanged; the two
concrete examples hold. -/
theorem validateWithFallback_spec (email : String) :
    (∀ e, validateEmail_NeverThrow email = .err e →
      jsIncludes e.message "Missing @" = true →
      validateWithFallback email = .ok "user@default.com") ∧
    (∀ e, validateEmail_NeverThrow email = .err e →
      jsIncludes e.message "Missing @" = false →
      validateWithFallback email = .err e) ∧
    (∀ v, validateEmail_NeverThrow email = .ok v →
      validateWithFallback email = .ok v) ∧
    validateWithFallback "no-at-sign" = .ok "user@default.com" ∧
    validateWithFallback "a@nodomain" =
      .err (EmailValidationError "Missing domain") := by
  refine ⟨?_, ?_, ?_, by decide, by decide⟩
  · intro e hE hM
    simp [validateWithFallback, hE, hM]
  · intro e hE hM
    simp [validateWithFallback, hE, hM]
  · intro v hE
    simp [validateWithFallback, hE]

/-- C6 witness: concrete instantiation on an email with no `@`. -/
theorem validateWithFallback_spec_witness :
    validateWithFallback "no-at-sign" = .ok "user@default.com" :=
  (validateWithFallback_spec "no-at-sign").1
    (EmailValidationError "Missing @ symbol") (by decide) (by decide)

/-- C7: `andThen` short-circuit law: a Failure chained with any
function equals the original Failure with the error value preserved,
the chained function is irrelevant (never consulted), and the first
Failure propagates untouched through a longer chain. -/
theorem andThen_short_circuit (α β γ ε : Type) (e : ε)
    (g : α → Result β ε) (h : β → Result γ ε) :
    (Result.err e).andThen g = Result.err e ∧
    (∀ g2 : α → Result β ε,
      (Result.err e).andThen g = (Result.err e).andThen g2) ∧
    ((Result.err e).andThen g).andThen h = Result.err e :=
  ⟨rfl, fun _ => rfl, rfl⟩

/-- C8: the duplicate-email lookup is never invoked when payload
construction fails (invocation count 0); when it succeeds, the lookup
runs once and the operation fails with `DuplicateEmailError` on the
payload email exactly when that email is reported as existing,
otherwise it succeeds with the payload. -/
theorem registerUser_spec (email password : String) (age : Int) :
    (∀ e, createUserPayload email password age = .err e →
      registerUser_NeverThrow email password age = (.err e, 0)) ∧
    (∀ pl, createUserPayload email password age = .ok pl →
      (checkEmailExists pl.email = true →
        registerUser_NeverThrow email password age =
          (.err (DuplicateEmailError pl.email), 1)) ∧
      (checkEmailExists pl.email = false →
        registerUser_NeverThrow email password age = (.ok pl, 1))) := by
  constructor
  · intro e hE
    simp [registerUser_NeverThrow, hE]
  · intro pl hP
    constructor
    · intro hX
      simp [registerUser_NeverThrow, hP, findUserByEmail, hX]
    · intro hX
      simp [registerUser_NeverThrow, hP, findUserByEmail, hX]

/-- C8 witness: concrete instantiation where validation fails, so the
lookup count is 0. -/
theorem registerUser_spec_witness :
    registerUser_NeverThrow "bademail" "short" 5 =
      (.err (EmailValidationError "Missing @ symbol"), 0) :=
  (registerUser_spec "bademail" "short" 5).1
    (EmailValidationError "Missing @ symbol") (by decide)

/-- C9: every domain error constructor tags the error with its class
name and prefixes the rule text with its kind; in particular every
failure of the email validator carries the name
`EmailValidationError` and a message of the prefixed form. -/
theorem errorTaxonomy_spec (m email : String) :
    (EmailValidationError m).name = "EmailValidationError" ∧
    (EmailValidationError m).message = "Email validation failed: " ++ m ∧
    (PasswordValidationError m).name = "PasswordValidationError" ∧
    (PasswordValidationError m).message =
      "Password validation failed: " ++ m ∧
    (AgeValidationError m).name = "AgeValidationError" ∧
    (AgeValidationError m).message = "Age validation failed: " ++ m ∧
    (DuplicateEmailError email).name = "DuplicateEmailError" ∧
    (DuplicateEmailError email).message =
      "Email already registered: " ++ email ∧
    (DatabaseError m).name = "DatabaseError" ∧
    (DatabaseError m).message = "Database error: " ++ m ∧
    (∀ e, validateEmail_NeverThrow email = .err e →
      e.name = "EmailValidationError" ∧
      (e.message = "Email validation failed: Missing @ symbol" ∨
       e.message = "Email validation failed: Missing domain")) := by
  refine ⟨rfl, rfl, rfl, rfl, rfl, rfl, rfl, rfl, rfl, rfl, ?_⟩
  intro e hE
  simp only [validateEmail_NeverThrow] at hE
  split at hE
  · cases hE
    exact ⟨rfl, Or.inl rfl⟩
  · split at hE
    · cases hE
      exact ⟨rfl, Or.inr rfl⟩
    · cases hE

/-- C9 witness: concrete instantiation on an email with no `@`. -/
theorem errorTaxonomy_spec_witness :
    (EmailValidationError "Missing @ symbol").name =
      "EmailValidationError" ∧
    ((EmailValidationError "Missing @ symbol").message =
       "Email validation failed: Missing @ symbol" ∨
     (EmailValidationError "Missing @ symbol").message =
       "Email validation failed: Missing domain") :=
  (errorTaxonomy_spec "x" "bademail").2.2.2.2.2.2.2.2.2.2
    (EmailValidationError "Missing @ symbol") (by decide)

/-- C10: the accumulating password validator checks only the length
rule: below 8 it fails with the `password`/`Too short` issue, at 8 or
more it succeeds with the password unchanged; on `alllower` it
succeeds while the short-circuit validator fails with
`Missing uppercase`. -/
theorem validatePassword_Collect_spec (password : String) :
    (password.length < 8 →
      validatePassword_Collect password =
        .err { field := "password", message := "Too short" }) ∧
    (8 ≤ password.length →
      validatePassword_Collect password = .ok password) ∧
    validatePassword_Collect "alllower" = .ok "alllower" ∧
    validatePassword_NeverThrow "alllower" =
      .err (PasswordValidationError "Missing uppercase") := by
  refine ⟨?_, ?_, by decide, by decide⟩
  · intro h1
    simp [validatePassword_Collect, h1]
  · intro h1
    have h2 : ¬ password.length < 8 := by omega
    simp [validatePassword_Collect, h2]

/-- C10 witness: concrete instantiation at a length-8 password with no
uppercase letter. -/
theorem validatePassword_Collect_spec_witness :
    validatePassword_Collect "alllower" = .ok "alllower" :=
  (validatePassword_Collect_spec "alllower").2.1 (by decide)

end TryCatchSucks
